import Mathlib

/-!
Shallow embedding of the NeonChat backend (src/main.py): an in-memory chat
server with phone/OTP authentication, signed session tokens and a WebSocket
broadcast room.  Time is modelled in whole seconds as `Nat`; the process-wide
dictionaries (`users`, `otps`, `connections`) are modelled as association
lists with Python-dict update semantics (replace-in-place for an existing
key, append for a new key); random id generation is modelled by passing the
freshly generated string as an explicit argument.
-/

namespace NeonChat

/-- Python `str.strip()` on the character list: drop whitespace from both
ends. -/
def pyStripChars (s : List Char) : List Char :=
  ((s.dropWhile Char.isWhitespace).reverse.dropWhile Char.isWhitespace).reverse

/-- Python `str.strip()` lifted to `String`. -/
def pyStrip (s : String) : String := String.mk (pyStripChars s.data)

/-- Python dict assignment `d[k] = v`: replace the entry in place when the
key is present, append otherwise. -/
def dinsert {α : Type} (k : String) (v : α) : List (String × α) → List (String × α)
  | [] => [(k, v)]
  | e :: rest => if e.1 = k then (k, v) :: rest else e :: dinsert k v rest

/-- Python `d.pop(k, None)`: remove the entry for `k` when present, no-op
otherwise. -/
def dpop {α : Type} (k : String) : List (String × α) → List (String × α)
  | [] => []
  | e :: rest => if e.1 = k then rest else e :: dpop k rest

/-- Python `d.get(k)`. -/
def dget {α : Type} (k : String) : List (String × α) → Option α
  | [] => none
  | e :: rest => if e.1 = k then some e.2 else dget k rest

/-- `OTP_TTL_SECONDS = 300` (main.py line 18). -/
def OTP_TTL_SECONDS : Nat := 300

/-- `JWT_SECRET` (main.py line 16); the signing key. -/
def JWT_SECRET : String := "CHANGE_ME_TO_A_LONG_RANDOM_SECRET"

/-- A user record: `{id, phone, created_at}` (main.py lines 126-131). -/
structure UserRec where
  id : String
  phone : String
  created_at : Nat
deriving DecidableEq, Repr

/-- A pending OTP challenge: `{code, expires}` (main.py lines 106-109). -/
structure Chal where
  code : String
  expires : Nat
deriving DecidableEq, Repr

/-- A live WebSocket handle; `alive` models whether `send_json` on it
succeeds or raises. -/
structure Handle where
  hid : Nat
  alive : Bool
deriving DecidableEq, Repr

/-- A stored chat message (main.py lines 169-175). -/
structure Msg where
  id : String
  sender_id : String
  sender : String
  text : String
  ts : Nat
deriving DecidableEq, Repr

/-- The process-wide mutable state: `users`, `otps`, `connections`,
`messages` (main.py lines 34-37). -/
structure St where
  users : List (String × UserRec)
  otps : List (String × Chal)
  connections : List (String × Handle)
  messages : List Msg
deriving DecidableEq, Repr

/-- A JSON scalar, for modelling response bodies field-by-field. -/
inductive JVal where
  | b (x : Bool)
  | s (x : String)
  | n (x : Nat)
deriving DecidableEq, Repr

/-- An HTTP-style error: `HTTPException(status_code, detail)`. -/
inductive HErr where
  | http (status : Nat) (detail : String)
deriving DecidableEq, Repr

/-- `gen_otp()` (main.py lines 55-57): the stub always returns "123456". -/
def gen_otp : String := "123456"

/-- The decoded JWT payload as a Lean structure: `sub`, `phone`, `exp`,
`iat`, plus the key the token was signed with (signature validity is
modelled as key equality). -/
structure Token where
  sub : Option String
  phone : Option String
  exp : Nat
  iat : Nat
  key : String
deriving DecidableEq, Repr

/-- The `{id, phone}` dict returned by `verify_token` (main.py line 77). -/
structure AuthUser where
  id : String
  phone : String
deriving DecidableEq, Repr

/-- `issue_token(user)` (main.py lines 61-68): payload with `sub = user.id`,
`phone = user.phone`, `exp = now + 7 days`, `iat = now`, signed with
`JWT_SECRET`. -/
def issue_token (user : UserRec) (now : Nat) : Token :=
  { sub := some user.id
    phone := some user.phone
    exp := now + 7 * 86400
    iat := now
    key := JWT_SECRET }

/-- `jwt.decode(token, secret, ...)` as implemented by python-jose: fails
when the signature does not validate (modelled: token not signed with
`secret`) or when `exp < now` (jose raises `ExpiredSignatureError` exactly
when the exp claim is strictly below the current time). -/
def jwt_decode (t : Token) (secret : String) (now : Nat) : Option Token :=
  if t.key ≠ secret then none
  else if t.exp < now then none
  else some t

/-- `verify_token(token)` (main.py lines 70-79): decode, then reject when
`sub` or `phone` is absent or falsy (Python `not uid` is true for `None`
and for the empty string); every failure is a 401 "Invalid token". -/
def verify_token (t : Token) (now : Nat) : Except HErr AuthUser :=
  match jwt_decode t JWT_SECRET now with
  | none => .error (.http 401 "Invalid token")
  | some data =>
    match data.sub, data.phone with
    | some uid, some phone =>
      if uid = "" ∨ phone = "" then .error (.http 401 "Invalid token")
      else .ok { id := uid, phone := phone }
    | some _, none => .error (.http 401 "Invalid token")
    | none, _ => .error (.http 401 "Invalid token")

/-- `PhoneStr = constr(strip_whitespace=True, min_length=8, max_length=20)`
(main.py line 40): pydantic strips surrounding whitespace, then checks the
length bound; nothing else is checked. -/
def validPhone (s : String) : Bool :=
  8 ≤ (pyStrip s).length && (pyStrip s).length ≤ 20

/-- The `code` field constraint of `VerifyOTP`:
`constr(min_length=4, max_length=8)` (main.py line 47). -/
def valid_code (s : String) : Bool :=
  4 ≤ s.length && s.length ≤ 8

/-- `send_otp` body (main.py lines 102-112): store the challenge with
expiry `now + OTP_TTL_SECONDS`, overwriting any prior challenge for the
phone, and return the JSON body
`{"ok": True, "dev_otp": code, "ttl": OTP_TTL_SECONDS}` (line 112). -/
def send_otp (phone : String) (now : Nat) (st : St) : List (String × JVal) × St :=
  let code := gen_otp
  let st' := { st with otps := dinsert phone { code := code, expires := now + OTP_TTL_SECONDS } st.otps }
  ([("ok", .b true), ("dev_otp", .s code), ("ttl", .n OTP_TTL_SECONDS)], st')

/-- The `/api/send_otp` endpoint including pydantic validation of
`SendOTP.phone`: a request whose phone fails `PhoneStr` is rejected before
the handler body runs; otherwise the handler receives the stripped phone. -/
def send_otp_endpoint (rawPhone : String) (now : Nat) (st : St) :
    Except HErr (List (String × JVal)) × St :=
  if validPhone rawPhone then
    let r := send_otp (pyStrip rawPhone) now st
    (.ok r.1, r.2)
  else (.error (.http 422 "validation error"), st)

/-- `verify_otp` body (main.py lines 114-134): look up the challenge
(400 "No OTP requested" when absent), reject when `time.time() > expires`
(400 "OTP expired"), reject a non-matching code (400 "Invalid code");
otherwise create the user on first login and return the token and user.
`freshId` stands for the random `gen_user_id()` draw. -/
def verify_otp (phone code : String) (now : Nat) (freshId : String) (st : St) :
    Except HErr (Token × AuthUser) × St :=
  match dget phone st.otps with
  | none => (.error (.http 400 "No OTP requested"), st)
  | some record =>
    if record.expires < now then (.error (.http 400 "OTP expired"), st)
    else if code ≠ record.code then (.error (.http 400 "Invalid code"), st)
    else
      let user : UserRec :=
        match dget phone st.users with
        | some u => u
        | none => { id := freshId, phone := phone, created_at := now }
      let st' :=
        if (dget phone st.users).isSome then st
        else { st with users := dinsert phone user st.users }
      (.ok (issue_token user now, { id := user.id, phone := user.phone }), st')

/-- The `/api/verify_otp` endpoint including pydantic validation of the
`VerifyOTP` model (phone and code constraints). -/
def verify_otp_endpoint (rawPhone code : String) (now : Nat) (freshId : String) (st : St) :
    Except HErr (Token × AuthUser) × St :=
  if validPhone rawPhone && valid_code code then
    verify_otp (pyStrip rawPhone) code now freshId st
  else (.error (.http 422 "validation error"), st)

/-- `messages[-50:]` (main.py line 159): the last min(50, length) entries of
the timeline, in append order. -/
def recent_history (msgs : List Msg) : List Msg :=
  msgs.drop (msgs.length - 50)

/-- Outcome of the WebSocket handshake phase of `ws_endpoint`. -/
inductive WsStart where
  | closed (code : Nat)
  | established (uid : String) (phone : String) (history : List Msg)
deriving DecidableEq, Repr

/-- `ws_endpoint` handshake (main.py lines 142-160): a missing token closes
with code 4401 before `accept`; a token rejected by `verify_token` likewise
closes with 4401; otherwise the transport is accepted, the connection is
registered under the user id, and the history snapshot `messages[-50:]` is
sent as the first frame. -/
def ws_connect (tok : Option Token) (h : Handle) (now : Nat) (st : St) : WsStart × St :=
  match tok with
  | none => (.closed 4401, st)
  | some t =>
    match verify_token t now with
    | .error _ => (.closed 4401, st)
    | .ok user =>
      let st' := { st with connections := dinsert user.id h st.connections }
      (.established user.id user.phone (recent_history st'.messages), st')

/-- An inbound WebSocket frame as read by `ws.receive_json()`:
`data.get("type")` and `data.get("text")`. -/
structure Frame where
  type : Option String
  text : Option String
deriving DecidableEq, Repr

/-- The broadcast loop (main.py lines 178-183): try `send_json` on every
registered handle in registry order; a send succeeds exactly when the
handle is alive.  Returns (delivered uids, dead uids). -/
def broadcast_run : List (String × Handle) → List String × List String
  | [] => ([], [])
  | e :: rest =>
    let r := broadcast_run rest
    if e.2.alive then (e.1 :: r.1, r.2) else (r.1, e.1 :: r.2)

/-- The pruning loop (main.py lines 184-185): `connections.pop(cid, None)`
for every dead uid. -/
def prune (dead : List String) (conns : List (String × Handle)) : List (String × Handle) :=
  dead.foldl (fun c cid => dpop cid c) conns

/-- One iteration of the `ws_endpoint` receive loop (main.py lines 163-188)
for an established connection of `uid`/`uphone`: a frame whose type is not
"message" is ignored; a "message" frame's text is stripped and, when empty,
ignored; otherwise the message is appended to the timeline and broadcast,
and dead connections are pruned.  `freshMsgId` stands for the random
message id draw.  Returns the new state, the delivered uids and the dead
uids. -/
def handle_frame (uid uphone : String) (frame : Frame) (freshMsgId : String) (now : Nat)
    (st : St) : St × List String × List String :=
  if frame.type = some "message" then
    let text := pyStrip (frame.text.getD "")
    if text = "" then (st, [], [])
    else
      let msg : Msg := { id := freshMsgId, sender_id := uid, sender := uphone, text := text, ts := now }
      let st1 := { st with messages := st.messages ++ [msg] }
      let r := broadcast_run st1.connections
      ({ st1 with connections := prune r.2 st1.connections }, r.1, r.2)
  else (st, [], [])

/-- The `finally` block of `ws_endpoint` (main.py lines 191-192):
`connections.pop(uid, None)`, run on every exit from the receive loop. -/
def ws_cleanup (uid : String) (st : St) : St :=
  { st with connections := dpop uid st.connections }

/-- The empty initial server state (main.py lines 34-37). -/
def st0 : St := { users := [], otps := [], connections := [], messages := [] }

/-- A state holding one fresh OTP challenge for "+1555000111". -/
def stOtp : St :=
  { users := []
    otps := [("+1555000111", { code := "123456", expires := 300 })]
    connections := []
    messages := [] }

/-- A sample registered user. -/
def u0 : UserRec := { id := "u_abc", phone := "+1555000111", created_at := 0 }

/-- The `{id, phone}` pair of the sample user. -/
def au0 : AuthUser := { id := u0.id, phone := u0.phone }

/-- A sample live handle. -/
def h1 : Handle := { hid := 1, alive := true }

/-- A 2001-character text ("a" repeated), longer than the documented
2000-character limit. -/
def longText : String := String.mk (List.replicate 2001 'a')

/-- The message the receive loop builds from a frame carrying `longText`. -/
def msgLong : Msg :=
  { id := "m_1", sender_id := "u_abc", sender := "+1555000111", text := longText, ts := 0 }

/-- A state in which user "u_abc" is registered with handle 2: the situation
after a newer connection (handle 2) has replaced an older handler's own
handle 1 for the same user. -/
def stReplaced : St :=
  { users := [], otps := [], connections := [("u_abc", { hid := 2, alive := true })], messages := [] }

/-- A three-connection registry in which exactly "u2" holds a dead handle. -/
def conns3 : List (String × Handle) :=
  [("u1", { hid := 1, alive := true }), ("u2", { hid := 2, alive := false }),
   ("u3", { hid := 3, alive := true })]

/-! ### Helper lemmas on the dict model -/

theorem dget_dinsert_self {α : Type} (k : String) (v : α) (l : List (String × α)) :
    dget k (dinsert k v l) = some v := by
  induction l with
  | nil => simp [dinsert, dget]
  | cons e rest ih =>
    by_cases h : e.1 = k
    · simp [dinsert, dget, h]
    · simp [dinsert, dget, h, ih]

theorem dget_dinsert_ne {α : Type} (k k' : String) (h : k' ≠ k) (v : α)
    (l : List (String × α)) : dget k' (dinsert k v l) = dget k' l := by
  induction l with
  | nil => simp [dinsert, dget, Ne.symm h]
  | cons e rest ih =>
    by_cases he : e.1 = k
    · simp [dinsert, dget, he, Ne.symm h]
    · simp [dinsert, dget, he, ih]

theorem dget_eq_none_of_not_mem {α : Type} (k : String) (l : List (String × α))
    (h : k ∉ l.map Prod.fst) : dget k l = none := by
  induction l with
  | nil => simp [dget]
  | cons e rest ih =>
    simp only [List.map_cons, List.mem_cons] at h
    push_neg at h
    simp [dget, Ne.symm h.1, ih h.2]

theorem dget_dpop_ne {α : Type} (k k' : String) (h : k' ≠ k)
    (l : List (String × α)) : dget k' (dpop k l) = dget k' l := by
  induction l with
  | nil => simp [dpop]
  | cons e rest ih =>
    by_cases he : e.1 = k
    · simp [dpop, dget, he, Ne.symm h]
    · simp [dpop, dget, he, ih]

theorem dget_dpop_self {α : Type} (k : String) (l : List (String × α))
    (h : (l.map Prod.fst).Nodup) : dget k (dpop k l) = none := by
  induction l with
  | nil => simp [dpop, dget]
  | cons e rest ih =>
    simp only [List.map_cons, List.nodup_cons] at h
    by_cases he : e.1 = k
    · subst he
      simp [dpop, dget_eq_none_of_not_mem e.1 rest h.1]
    · simp [dpop, dget, he, ih h.2]

theorem filter_key_ne_of_not_mem {α : Type} (k : String) (l : List (String × α))
    (h : k ∉ l.map Prod.fst) : l.filter (fun e => !(e.1 == k)) = l := by
  rw [List.filter_eq_self]
  intro e he
  simp only [List.mem_map] at h
  simp only [Bool.not_eq_true', beq_eq_false_iff_ne, ne_eq]
  intro hk
  exact h ⟨e, he, hk⟩

theorem dpop_eq_filter {α : Type} (k : String) (l : List (String × α))
    (h : (l.map Prod.fst).Nodup) :
    dpop k l = l.filter (fun e => !(e.1 == k)) := by
  induction l with
  | nil => simp [dpop]
  | cons e rest ih =>
    simp only [List.map_cons, List.nodup_cons] at h
    by_cases he : e.1 = k
    · subst he
      simp [dpop, List.filter_cons, filter_key_ne_of_not_mem e.1 rest h.1]
    · simp [dpop, List.filter_cons, he, ih h.2]

theorem length_filter_split {α : Type} (p : α → Bool) (l : List α) :
    (l.filter p).length + (l.filter (fun a => !p a)).length = l.length := by
  induction l with
  | nil => simp
  | cons a rest ih =>
    cases ha : p a <;> simp [List.filter_cons, ha] <;> omega

theorem broadcast_run_eq (l : List (String × Handle)) :
    broadcast_run l = ((l.filter (fun e => e.2.alive)).map Prod.fst,
                       (l.filter (fun e => !e.2.alive)).map Prod.fst) := by
  induction l with
  | nil => simp [broadcast_run]
  | cons e rest ih =>
    cases ha : e.2.alive <;> simp [broadcast_run, List.filter_cons, ha, ih]

/-! ### Claim theorems -/

/-- C1: for every phone and code, `verify_otp` fails with 400 "No OTP
requested" when no challenge is stored, with 400 "OTP expired" when `now`
is strictly past the stored expiry, and with 400 "Invalid code" when the
submitted code differs from the stored one, checked in exactly that order
(the expiry case fires for any submitted code, the mismatch case only once
the challenge exists and is unexpired); on every such failure the returned
state — users, otps, connections and messages — is exactly the input
state. -/
theorem verify_otp_failure_order_and_purity (phone code : String) (now : Nat)
    (fid : String) (st : St) :
    (dget phone st.otps = none →
      verify_otp phone code now fid st = (.error (.http 400 "No OTP requested"), st)) ∧
    (∀ r : Chal, dget phone st.otps = some r → r.expires < now →
      verify_otp phone code now fid st = (.error (.http 400 "OTP expired"), st)) ∧
    (∀ r : Chal, dget phone st.otps = some r → ¬ r.expires < now → code ≠ r.code →
      verify_otp phone code now fid st = (.error (.http 400 "Invalid code"), st)) := by
  refine ⟨?_, ?_, ?_⟩
  · intro h
    simp [verify_otp, h]
  · intro r hr hexp
    simp [verify_otp, hr, hexp]
  · intro r hr hexp hcode
    simp [verify_otp, hr, hexp, hcode]

/-- Witness for C1: the three failure modes at concrete states, each
obtained by applying the theorem. -/
theorem verify_otp_failure_order_and_purity_witness :
    verify_otp "+1555000111" "123456" 0 "u_a" st0
      = (.error (.http 400 "No OTP requested"), st0) ∧
    verify_otp "+1555000111" "123456" 301 "u_a" stOtp
      = (.error (.http 400 "OTP expired"), stOtp) ∧
    verify_otp "+1555000111" "000000" 10 "u_a" stOtp
      = (.error (.http 400 "Invalid code"), stOtp) :=
  ⟨(verify_otp_failure_order_and_purity "+1555000111" "123456" 0 "u_a" st0).1 (by decide),
   (verify_otp_failure_order_and_purity "+1555000111" "123456" 301 "u_a" stOtp).2.1
     { code := "123456", expires := 300 } (by decide) (by decide),
   (verify_otp_failure_order_and_purity "+1555000111" "000000" 10 "u_a" stOtp).2.2
     { code := "123456", expires := 300 } (by decide) (by decide) (by decide)⟩

/-- C2: for every phone with a stored unexpired challenge whose code
matches, `verify_otp` succeeds; the resulting state has a user record for
the phone carrying the returned id and phone, a first success uses the
freshly generated id, the otps map is untouched, and any subsequent
successful verification for the same phone returns the identical user and
leaves the state unchanged (idempotent registration). -/
theorem verify_otp_success_idempotent (phone code : String) (now : Nat)
    (fid : String) (st : St) (r : Chal) (hr : dget phone st.otps = some r)
    (hexp : ¬ r.expires < now) (hcode : code = r.code) :
    ∃ tok u st1,
      verify_otp phone code now fid st = (.ok (tok, u), st1) ∧
      (∃ urec : UserRec, dget phone st1.users = some urec ∧
        urec.id = u.id ∧ urec.phone = u.phone) ∧
      (dget phone st.users = none → u.id = fid) ∧
      st1.otps = st.otps ∧
      (∀ now2 fid2, ¬ r.expires < now2 →
        ∃ tok2 st2, verify_otp phone code now2 fid2 st1 = (.ok (tok2, u), st2) ∧
          st2 = st1) := by
  cases hu : dget phone st.users with
  | some uex =>
    refine ⟨issue_token uex now, { id := uex.id, phone := uex.phone }, st, ?_,
      ⟨uex, hu, rfl, rfl⟩, ?_, rfl, ?_⟩
    · simp [verify_otp, hr, hexp, hcode, hu]
    · intro hnone
      exact absurd hnone (by simp)
    · intro now2 fid2 hexp2
      exact ⟨issue_token uex now2, st, by simp [verify_otp, hr, hexp2, hcode, hu], rfl⟩
  | none =>
    refine ⟨issue_token { id := fid, phone := phone, created_at := now } now,
      { id := fid, phone := phone },
      { st with users := dinsert phone { id := fid, phone := phone, created_at := now } st.users },
      ?_, ⟨{ id := fid, phone := phone, created_at := now }, dget_dinsert_self phone _ st.users,
        rfl, rfl⟩, fun _ => rfl, rfl, ?_⟩
    · simp [verify_otp, hr, hexp, hcode, hu]
    · intro now2 fid2 hexp2
      refine ⟨issue_token { id := fid, phone := phone, created_at := now } now2, _, ?_, rfl⟩
      simp [verify_otp, hr, hexp2, hcode, dget_dinsert_self phone _ st.users]

/-- Witness for C2: verifying twice with the stored code before expiry at a
concrete state. -/
theorem verify_otp_success_idempotent_witness :
    ¬ (300 : Nat) < 10 ∧ ("123456" : String) = "123456" ∧
    (∃ tok u st1,
      verify_otp "+1555000111" "123456" 10 "u_f1" stOtp = (.ok (tok, u), st1) ∧
      (∃ urec : UserRec, dget "+1555000111" st1.users = some urec ∧
        urec.id = u.id ∧ urec.phone = u.phone) ∧
      (dget "+1555000111" stOtp.users = none → u.id = "u_f1") ∧
      st1.otps = stOtp.otps ∧
      (∀ now2 fid2, ¬ (300 : Nat) < now2 →
        ∃ tok2 st2, verify_otp "+1555000111" "123456" now2 fid2 st1 = (.ok (tok2, u), st2) ∧
          st2 = st1)) :=
  ⟨by decide, rfl,
   verify_otp_success_idempotent "+1555000111" "123456" 10 "u_f1" stOtp
     { code := "123456", expires := 300 } (by decide) (by decide) (by decide)⟩

/-- C3: a token issued for user `u` (with the nonempty id and phone every
stored user has) verifies back to exactly `{id, phone}` at any time up to
the expiry `issuance + 7 days`, and fails with 401 once `now` is strictly
past the expiry; verification also fails with 401 for a token whose
signature does not validate (not signed with `JWT_SECRET`) or whose `sub`
or `phone` field is absent.  `verify_token` is a pure function of the token
and the clock, so it is side-effect-free by construction. -/
theorem token_roundtrip (u : UserRec) (nowI nowV : Nat)
    (hid : u.id ≠ "") (hph : u.phone ≠ "") :
    (nowV ≤ nowI + 7 * 86400 →
      verify_token (issue_token u nowI) nowV = .ok { id := u.id, phone := u.phone }) ∧
    (nowI + 7 * 86400 < nowV →
      verify_token (issue_token u nowI) nowV = .error (.http 401 "Invalid token")) ∧
    (∀ t : Token, t.key ≠ JWT_SECRET →
      verify_token t nowV = .error (.http 401 "Invalid token")) ∧
    (∀ t : Token, t.sub = none →
      verify_token t nowV = .error (.http 401 "Invalid token")) ∧
    (∀ t : Token, t.phone = none →
      verify_token t nowV = .error (.http 401 "Invalid token")) := by
  refine ⟨?_, ?_, ?_, ?_, ?_⟩
  · intro h
    have hlt : ¬ (nowI + 7 * 86400 < nowV) := by omega
    simp [verify_token, jwt_decode, issue_token, hlt, hid, hph]
  · intro h
    simp [verify_token, jwt_decode, issue_token, h]
  · intro t h
    simp [verify_token, jwt_decode, h]
  · intro t h
    by_cases hk : t.key ≠ JWT_SECRET
    · simp [verify_token, jwt_decode, hk]
    · by_cases he : t.exp < nowV
      · simp [verify_token, jwt_decode, hk, he]
      · simp [verify_token, jwt_decode, hk, he, h]
  · intro t h
    by_cases hk : t.key ≠ JWT_SECRET
    · simp [verify_token, jwt_decode, hk]
    · by_cases he : t.exp < nowV
      · simp [verify_token, jwt_decode, hk, he]
      · cases hs : t.sub <;> simp [verify_token, jwt_decode, hk, he, hs, h]

/-- Witness for C3: the roundtrip at the sample user, issued at 0 and
verified at 100. -/
theorem token_roundtrip_witness :
    u0.id ≠ "" ∧ u0.phone ≠ "" ∧
    ((100 ≤ 0 + 7 * 86400 →
      verify_token (issue_token u0 0) 100 = .ok { id := u0.id, phone := u0.phone }) ∧
    (0 + 7 * 86400 < 100 →
      verify_token (issue_token u0 0) 100 = .error (.http 401 "Invalid token")) ∧
    (∀ t : Token, t.key ≠ JWT_SECRET →
      verify_token t 100 = .error (.http 401 "Invalid token")) ∧
    (∀ t : Token, t.sub = none →
      verify_token t 100 = .error (.http 401 "Invalid token")) ∧
    (∀ t : Token, t.phone = none →
      verify_token t 100 = .error (.http 401 "Invalid token"))) :=
  ⟨by decide, by decide, token_roundtrip u0 0 100 (by decide) (by decide)⟩

/-- C4: for every timeline, `recent_history` (the `messages[-50:]` snapshot)
has exactly min(50, length) entries and is a suffix of the timeline, i.e.
its most recent entries in append (chronological) order; and on a
successfully established connection the history frame is exactly
`recent_history` of the current timeline while the timeline itself is left
unchanged (the snapshot is read-only). -/
theorem recent_history_snapshot (t : Token) (h : Handle) (now : Nat) (st : St)
    (u : AuthUser) (hv : verify_token t now = .ok u) :
    (∀ msgs : List Msg, (recent_history msgs).length = min 50 msgs.length ∧
      List.IsSuffix (recent_history msgs) msgs) ∧
    ws_connect (some t) h now st =
      (.established u.id u.phone (recent_history st.messages),
       { st with connections := dinsert u.id h st.connections }) ∧
    ({ st with connections := dinsert u.id h st.connections } : St).messages
      = st.messages := by
  refine ⟨fun msgs => ⟨?_, ?_⟩, ?_, rfl⟩
  · simp only [recent_history, List.length_drop]
    omega
  · exact List.drop_suffix _ msgs
  · simp [ws_connect, hv]

/-- Witness for C4: a freshly issued token establishes a connection and
receives the snapshot of the current (empty) timeline. -/
theorem recent_history_snapshot_witness :
    verify_token (issue_token u0 0) 0 = .ok au0 ∧
    ((∀ msgs : List Msg, (recent_history msgs).length = min 50 msgs.length ∧
      List.IsSuffix (recent_history msgs) msgs) ∧
    ws_connect (some (issue_token u0 0)) h1 0 st0 =
      (.established au0.id au0.phone (recent_history st0.messages),
       { st0 with connections := dinsert au0.id h1 st0.connections }) ∧
    ({ st0 with connections := dinsert au0.id h1 st0.connections } : St).messages
      = st0.messages) :=
  ⟨rfl, recent_history_snapshot (issue_token u0 0) h1 0 st0 au0 rfl⟩

/-- C5: for a registry with pairwise-distinct user ids of which exactly one
entry `(d, hd)` has a dead handle, the broadcast loop attempts delivery to
every registered handle (the delivered and dead uid lists together are a
permutation of all registered uids), succeeds for exactly N-1 of them,
records exactly `d` as dead, and the pruning pass removes exactly the entry
for `d` from the registry, so the uid list a subsequent broadcast would
iterate over no longer contains `d`; one delivery failure never aborts
delivery to the remaining connections. -/
theorem broadcast_one_dead_pruned (conns : List (String × Handle)) (d : String)
    (hd : Handle) (hnd : (conns.map Prod.fst).Nodup)
    (hdead : conns.filter (fun e => !e.2.alive) = [(d, hd)]) :
    List.Perm ((broadcast_run conns).1 ++ (broadcast_run conns).2) (conns.map Prod.fst) ∧
    (broadcast_run conns).1.length + 1 = conns.length ∧
    (broadcast_run conns).2 = [d] ∧
    prune (broadcast_run conns).2 conns = conns.filter (fun e => !(e.1 == d)) ∧
    d ∉ (prune (broadcast_run conns).2 conns).map Prod.fst := by
  have hrun := broadcast_run_eq conns
  have hdead2 : (broadcast_run conns).2 = [d] := by
    rw [hrun]
    simp [hdead]
  refine ⟨?_, ?_, hdead2, ?_, ?_⟩
  · rw [hrun]
    simpa using (List.filter_append_perm (fun e => e.2.alive) conns).map Prod.fst
  · have hsplit := length_filter_split (fun e => e.2.alive) conns
    rw [hrun]
    simp only [List.length_map]
    rw [hdead] at hsplit
    simp at hsplit
    omega
  · rw [hdead2]
    simp only [prune, List.foldl_cons, List.foldl_nil]
    exact dpop_eq_filter d conns hnd
  · rw [hdead2]
    simp only [prune, List.foldl_cons, List.foldl_nil]
    rw [dpop_eq_filter d conns hnd]
    simp only [List.mem_map, List.mem_filter]
    rintro ⟨e, ⟨_, hne⟩, hfst⟩
    simp [hfst] at hne

/-- Witness for C5: the three-connection registry in which exactly "u2" is
dead. -/
theorem broadcast_one_dead_pruned_witness :
    List.Perm ((broadcast_run conns3).1 ++ (broadcast_run conns3).2) (conns3.map Prod.fst) ∧
    (broadcast_run conns3).1.length + 1 = conns3.length ∧
    (broadcast_run conns3).2 = ["u2"] ∧
    prune (broadcast_run conns3).2 conns3 = conns3.filter (fun e => !(e.1 == "u2")) ∧
    "u2" ∉ (prune (broadcast_run conns3).2 conns3).map Prod.fst :=
  broadcast_one_dead_pruned conns3 "u2" { hid := 2, alive := false }
    (by decide) (by decide)

/-- C7: a WebSocket connection attempt whose token is missing, or whose
token `verify_token` rejects (invalid signature, missing fields, or
expired), is closed with policy code 4401 — in the source before
`ws.accept()` is ever called — with no registry entry created, no history
frame produced, and the state returned exactly as it was. -/
theorem ws_reject_unauthorized (tok : Option Token) (h : Handle) (now : Nat)
    (st : St)
    (hbad : tok = none ∨ ∃ t e, tok = some t ∧ verify_token t now = .error e) :
    ws_connect tok h now st = (.closed 4401, st) := by
  rcases hbad with h0 | ⟨t, e, ht, he⟩
  · simp [ws_connect, h0]
  · simp [ws_connect, ht, he]

/-- Witness for C7: a token issued at time 0 is expired at time 1000000 and
the handshake closes with 4401 leaving the state untouched. -/
theorem ws_reject_unauthorized_witness :
    ws_connect (some (issue_token u0 0)) { hid := 1, alive := true } 1000000 st0
      = (.closed 4401, st0) :=
  ws_reject_unauthorized (some (issue_token u0 0)) { hid := 1, alive := true } 1000000 st0
    (Or.inr ⟨issue_token u0 0, .http 401 "Invalid token", rfl, rfl⟩)

theorem dropWhile_replicate_of_neg {α : Type} (p : α → Bool) (c : α) (n : Nat)
    (h : p c = false) :
    List.dropWhile p (List.replicate n c) = List.replicate n c := by
  cases n with
  | zero => rfl
  | succ m => simp [List.replicate_succ, List.dropWhile_cons, h]

theorem pyStripChars_replicate_a (n : Nat) :
    pyStripChars (List.replicate n 'a') = List.replicate n 'a' := by
  have ha : Char.isWhitespace 'a' = false := by decide
  rw [pyStripChars, dropWhile_replicate_of_neg _ _ _ ha, List.reverse_replicate,
    dropWhile_replicate_of_neg _ _ _ ha, List.reverse_replicate]

theorem data_longText : longText.data = List.replicate 2001 'a' := rfl

theorem pyStrip_longText : pyStrip longText = longText := by
  rw [pyStrip, data_longText, pyStripChars_replicate_a]
  rfl

theorem length_longText : longText.length = 2001 := by
  rw [String.length, data_longText, List.length_replicate]

theorem longText_ne_empty : longText ≠ "" := by
  intro h
  have h2 := congrArg String.length h
  rw [length_longText] at h2
  simp at h2

/-- C6 (code-bug evidence): the WebSocket receive loop enforces no upper
length bound — a "message" frame carrying a 2001-character text is appended
to the timeline verbatim.  The `MessageIn` model with
`constr(min_length=1, max_length=2000)` (main.py lines 49-50) is declared
but never applied to inbound frames (`ws.receive_json()` output is used
directly), so the documented 2000-character cap is not enforced; only the
non-empty-after-trim half of the claim holds. -/
theorem overlong_message_appended :
    (handle_frame "u_abc" "+1555000111" { type := some "message", text := some longText }
      "m_1" 0 st0).1.messages = [msgLong] ∧
    2000 < msgLong.text.length ∧
    pyStrip msgLong.text = msgLong.text ∧ msgLong.text ≠ "" := by
  refine ⟨?_, ?_, pyStrip_longText, longText_ne_empty⟩
  · simp [handle_frame, pyStrip_longText, longText_ne_empty, msgLong, st0,
      broadcast_run, prune]
  · show 2000 < longText.length
    rw [length_longText]
    omega

/-- Counterexample to C8 as stated: the claim exempts the case where a
newer connection for the user has replaced the terminating handler's
registry entry.  In the source the `finally` block runs
`connections.pop(uid, None)` unconditionally: in state `stReplaced`, user
"u_abc" is registered with the newer handle 2 (the terminating handler's
own handle was handle 1), yet after cleanup the entry is gone. -/
theorem cleanup_removes_replaced_entry :
    dget "u_abc" stReplaced.connections = some { hid := 2, alive := true } ∧
    ({ hid := 2, alive := true } : Handle) ≠ h1 ∧
    dget "u_abc" (ws_cleanup "u_abc" stReplaced).connections = none := by
  refine ⟨rfl, ?_, rfl⟩
  intro h
  simp [h1] at h

/-- C8 amended: whenever the handler loop for user `uid` terminates, the
registry entry under `uid` is removed unconditionally — even if a newer
connection for `uid` has replaced it, the replacement entry is removed too
— entries of other users and the rest of the state are untouched, and in
particular a terminated handler never leaves its own handle registered. -/
theorem ws_cleanup_unconditional (uid : String) (st : St)
    (hnd : (st.connections.map Prod.fst).Nodup) :
    dget uid (ws_cleanup uid st).connections = none ∧
    (∀ k, k ≠ uid → dget k (ws_cleanup uid st).connections = dget k st.connections) ∧
    (ws_cleanup uid st).users = st.users ∧
    (ws_cleanup uid st).otps = st.otps ∧
    (ws_cleanup uid st).messages = st.messages :=
  ⟨dget_dpop_self uid st.connections hnd,
   fun k hk => dget_dpop_ne uid k hk st.connections, rfl, rfl, rfl⟩

/-- Witness for the amended C8 at the replaced-entry state. -/
theorem ws_cleanup_unconditional_witness :
    (stReplaced.connections.map Prod.fst).Nodup ∧
    (dget "u_abc" (ws_cleanup "u_abc" stReplaced).connections = none ∧
    (∀ k, k ≠ "u_abc" →
      dget k (ws_cleanup "u_abc" stReplaced).connections = dget k stReplaced.connections) ∧
    (ws_cleanup "u_abc" stReplaced).users = stReplaced.users ∧
    (ws_cleanup "u_abc" stReplaced).otps = stReplaced.otps ∧
    (ws_cleanup "u_abc" stReplaced).messages = stReplaced.messages) :=
  ⟨by decide, ws_cleanup_unconditional "u_abc" stReplaced (by decide)⟩

/-- Counterexample to C9 as stated: the send-otp response body (main.py
line 112) has no "code" field; the generated code is returned under the
key "dev_otp". -/
theorem send_otp_response_lacks_code_field :
    validPhone "+1555000111" = true ∧
    dget "code" (send_otp "+1555000111" 0 st0).1 = none ∧
    dget "dev_otp" (send_otp "+1555000111" 0 st0).1 = some (.s "123456") := by
  refine ⟨by decide, rfl, rfl⟩

/-- C9 amended: for every well-formed phone, send-otp returns a response of
shape `{ok, dev_otp, ttl}` with ok true, dev_otp "123456" and ttl 300, and
stores a challenge for the (stripped) phone expiring 300 seconds in the
future, overwriting any prior challenge for that phone; no other state is
touched. -/
theorem send_otp_response_and_store (phone : String) (now : Nat) (st : St)
    (hv : validPhone phone = true) :
    ∃ resp st',
      send_otp_endpoint phone now st = (.ok resp, st') ∧
      dget "ok" resp = some (.b true) ∧
      dget "dev_otp" resp = some (.s "123456") ∧
      dget "ttl" resp = some (.n 300) ∧
      dget (pyStrip phone) st'.otps = some { code := "123456", expires := now + 300 } ∧
      (∀ p, p ≠ pyStrip phone → dget p st'.otps = dget p st.otps) ∧
      st'.users = st.users ∧ st'.connections = st.connections ∧
      st'.messages = st.messages := by
  have hres : send_otp_endpoint phone now st =
      (.ok [("ok", .b true), ("dev_otp", .s "123456"), ("ttl", .n 300)],
       { st with otps := dinsert (pyStrip phone) (Chal.mk "123456" (now + 300)) st.otps }) := by
    simp [send_otp_endpoint, hv, send_otp, gen_otp, OTP_TTL_SECONDS]
  refine ⟨_, _, hres, rfl, rfl, rfl, dget_dinsert_self _ _ _, ?_, rfl, rfl, rfl⟩
  intro p hp
  exact dget_dinsert_ne _ p hp _ _

/-- Witness for the amended C9 at a concrete phone and clock. -/
theorem send_otp_response_and_store_witness :
    validPhone "+1555000111" = true ∧
    (∃ resp st',
      send_otp_endpoint "+1555000111" 5 st0 = (.ok resp, st') ∧
      dget "ok" resp = some (.b true) ∧
      dget "dev_otp" resp = some (.s "123456") ∧
      dget "ttl" resp = some (.n 300) ∧
      dget (pyStrip "+1555000111") st'.otps = some { code := "123456", expires := 5 + 300 } ∧
      (∀ p, p ≠ pyStrip "+1555000111" → dget p st'.otps = dget p st0.otps) ∧
      st'.users = st0.users ∧ st'.connections = st0.connections ∧
      st'.messages = st0.messages) :=
  ⟨by decide, send_otp_response_and_store "+1555000111" 5 st0 (by decide)⟩

/-- C10: both OTP endpoints accept a phone exactly when its
whitespace-stripped length is between 8 and 20 characters — no digit,
format or leading "+" requirement exists — and consequently the 10-letter
alphabetic string "abcdefghij" passes the full flow and receives its own
user record. -/
theorem phone_accepted_iff_stripped_length (s : String) (now : Nat) (fid : String)
    (st : St) :
    ((∃ resp st', send_otp_endpoint s now st = (.ok resp, st')) ↔
      (8 ≤ (pyStrip s).length ∧ (pyStrip s).length ≤ 20)) ∧
    ((8 ≤ (pyStrip s).length ∧ (pyStrip s).length ≤ 20) →
      verify_otp_endpoint s "123456" now fid st = verify_otp (pyStrip s) "123456" now fid st) ∧
    (¬ (8 ≤ (pyStrip s).length ∧ (pyStrip s).length ≤ 20) →
      verify_otp_endpoint s "123456" now fid st = (.error (.http 422 "validation error"), st)) ∧
    (verify_otp_endpoint "abcdefghij" "123456" 10 "u_alpha"
        (send_otp_endpoint "abcdefghij" 0 st0).2).1
      = .ok (issue_token { id := "u_alpha", phone := "abcdefghij", created_at := 10 } 10,
             { id := "u_alpha", phone := "abcdefghij" }) ∧
    dget "abcdefghij"
      ((verify_otp_endpoint "abcdefghij" "123456" 10 "u_alpha"
        (send_otp_endpoint "abcdefghij" 0 st0).2).2).users
      = some { id := "u_alpha", phone := "abcdefghij", created_at := 10 } := by
  have hval : validPhone s = true ↔
      (8 ≤ (pyStrip s).length ∧ (pyStrip s).length ≤ 20) := by
    simp [validPhone]
  refine ⟨⟨?_, ?_⟩, ?_, ?_, rfl, rfl⟩
  · rintro ⟨resp, st', hres⟩
    cases hvb : validPhone s with
    | true => exact hval.mp hvb
    | false => simp [send_otp_endpoint, hvb] at hres
  · intro hP
    exact ⟨(send_otp (pyStrip s) now st).1, (send_otp (pyStrip s) now st).2,
      by simp [send_otp_endpoint, hval.mpr hP]⟩
  · intro hP
    have hc : valid_code "123456" = true := by decide
    simp [verify_otp_endpoint, hval.mpr hP, hc]
  · intro hP
    have hv : validPhone s = false := by
      cases hvb : validPhone s with
      | true => exact absurd (hval.mp hvb) hP
      | false => rfl
    simp [verify_otp_endpoint, hv]

/-- Witness for C10 at a concrete input: the whitespace-padded sample phone
strips to length 11 and is accepted. -/
theorem phone_accepted_iff_stripped_length_witness :
    ((∃ resp st', send_otp_endpoint " +1555000111 " 0 st0 = (.ok resp, st')) ↔
      (8 ≤ (pyStrip " +1555000111 ").length ∧ (pyStrip " +1555000111 ").length ≤ 20)) ∧
    ((8 ≤ (pyStrip " +1555000111 ").length ∧ (pyStrip " +1555000111 ").length ≤ 20) →
      verify_otp_endpoint " +1555000111 " "123456" 0 "u_w" st0
        = verify_otp (pyStrip " +1555000111 ") "123456" 0 "u_w" st0) ∧
    (¬ (8 ≤ (pyStrip " +1555000111 ").length ∧ (pyStrip " +1555000111 ").length ≤ 20) →
      verify_otp_endpoint " +1555000111 " "123456" 0 "u_w" st0
        = (.error (.http 422 "validation error"), st0)) ∧
    (verify_otp_endpoint "abcdefghij" "123456" 10 "u_alpha"
        (send_otp_endpoint "abcdefghij" 0 st0).2).1
      = .ok (issue_token { id := "u_alpha", phone := "abcdefghij", created_at := 10 } 10,
             { id := "u_alpha", phone := "abcdefghij" }) ∧
    dget "abcdefghij"
      ((verify_otp_endpoint "abcdefghij" "123456" 10 "u_alpha"
        (send_otp_endpoint "abcdefghij" 0 st0).2).2).users
      = some { id := "u_alpha", phone := "abcdefghij", created_at := 10 } :=
  phone_accepted_iff_stripped_length " +1555000111 " 0 "u_w" st0

end NeonChat
